import Mathlib

/-!
Verification of the token representation layer of rust-tokstream
(src/src/tok.rs): a generic lexical token value pairing a user-defined
kind with the source span it occupies, together with the classification
contract the kind type must satisfy. Pure Rust methods are embedded as
total Lean functions; read-only methods taking a shared receiver are
additionally given a state-passing form to settle frame properties.
-/

/-- Modelled from the spec: the external source-location type of the
srcspan crate (not part of this repository). An opaque point in the input
source, here a line and a column, with structural equality. -/
structure SrcLoc where
  line : Nat
  column : Nat
deriving DecidableEq

/-- Modelled from the spec: the external source-span type of the srcspan
crate (not part of this repository). An opaque range over the input
source, with structural equality, exposing its start location. -/
structure SrcSpan where
  start : SrcLoc
  stop : SrcLoc
deriving DecidableEq

/-- Modelled from the spec: the start-location accessor of a span (the
srcspan crate method that Tok::loc delegates to). -/
def SrcSpan.loc (s : SrcSpan) : SrcLoc :=
  s.start

/-- The TokKind trait of src/src/tok.rs: the classification contract any
concrete token-kind type must implement. Each method is a pure boolean
predicate on the kind value. -/
class TokKind (T : Type) where
  is_keyword : T → Bool
  is_reserved : T → Bool
  is_comment : T → Bool
  is_literal : T → Bool
  is_identifier : T → Bool
  keep : T → Bool

/-- The Display bound required of the kind type: a Rust Display
implementation is embedded as a rendering function into String. -/
class TokDisplay (T : Type) where
  display : T → String

/-- The Tok struct of src/src/tok.rs: a lexical token pairing a kind with
the source span it occupies. The field projections are the span() and
kind() accessors of the source. -/
structure Tok (T : Type) where
  kind : T
  span : SrcSpan

/-- Tok::new of src/src/tok.rs: builds a token from the given kind and
source span, storing both unchanged; no validation is performed. -/
def Tok.new {T : Type} (kind : T) (span : SrcSpan) : Tok T :=
  Tok.mk kind span

/-- Tok::loc of src/src/tok.rs: the start of the location of this token,
delegating to the span's start-location accessor. -/
def Tok.loc {T : Type} (t : Tok T) : SrcLoc :=
  t.span.loc

/-- Tok::is_keyword of src/src/tok.rs: delegates to the kind. -/
def Tok.is_keyword {T : Type} [TokKind T] (t : Tok T) : Bool :=
  TokKind.is_keyword t.kind

/-- Tok::is_reserved of src/src/tok.rs: delegates to the kind. -/
def Tok.is_reserved {T : Type} [TokKind T] (t : Tok T) : Bool :=
  TokKind.is_reserved t.kind

/-- Tok::keep of src/src/tok.rs: delegates to the kind. -/
def Tok.keep {T : Type} [TokKind T] (t : Tok T) : Bool :=
  TokKind.keep t.kind

/-- The Display implementation for Tok in src/src/tok.rs: formats exactly
the kind; the span contributes nothing to the rendered text. -/
def Tok.display {T : Type} [TokDisplay T] (t : Tok T) : String :=
  TokDisplay.display t.kind

/-- The derived PartialEq and Eq for Tok in src/src/tok.rs: structural
equality over the kind and span fields, using the kind type's own
equality (the T : PartialEq bound, embedded as decidable equality). -/
def Tok.beq {T : Type} [DecidableEq T] (a b : Tok T) : Bool :=
  a.kind == b.kind && a.span == b.span

/-- The derived Clone for Tok in src/src/tok.rs: a deep value copy of the
kind and span fields; both are plain immutable values, so the copy is the
same value. -/
def Tok.clone {T : Type} (t : Tok T) : Tok T :=
  Tok.mk t.kind t.span

/-- One public read-only operation of Tok, reified so that a sequence of
operations can be run against a token state. The constructors enumerate
every public method of the source; none of them mutates, and Tok has no
other public operations. -/
inductive TokQuery (T : Type) where
  | getSpan : TokQuery T
  | getKind : TokQuery T
  | getLoc : TokQuery T
  | askKeyword : TokQuery T
  | askReserved : TokQuery T
  | askKeep : TokQuery T
  | render : TokQuery T
  | eqWith : Tok T → TokQuery T
  | cloneIt : TokQuery T

/-- The value a single query returns. -/
inductive QueryResult (T : Type) where
  | outSpan : SrcSpan → QueryResult T
  | outKind : T → QueryResult T
  | outLoc : SrcLoc → QueryResult T
  | outBool : Bool → QueryResult T
  | outText : String → QueryResult T
  | outTok : Tok T → QueryResult T

/-- State-passing form of the source's read-only methods: each method
takes a shared receiver, so it returns its result together with the
receiver state it leaves behind. -/
def runQuery {T : Type} [TokKind T] [TokDisplay T] [DecidableEq T]
    (t : Tok T) : TokQuery T → QueryResult T × Tok T
  | .getSpan => (.outSpan t.span, t)
  | .getKind => (.outKind t.kind, t)
  | .getLoc => (.outLoc t.loc, t)
  | .askKeyword => (.outBool t.is_keyword, t)
  | .askReserved => (.outBool t.is_reserved, t)
  | .askKeep => (.outBool t.keep, t)
  | .render => (.outText t.display, t)
  | .eqWith u => (.outBool (Tok.beq t u), t)
  | .cloneIt => (.outTok t.clone, t)

/-- Runs a sequence of read-only operations against a token state,
threading the state through and collecting the results. -/
def runQueries {T : Type} [TokKind T] [TokDisplay T] [DecidableEq T]
    (qs : List (TokQuery T)) (t : Tok T) : List (QueryResult T) × Tok T :=
  match qs with
  | [] => ([], t)
  | q :: rest =>
    ((runQuery t q).1 :: (runQueries rest (runQuery t q).2).1,
     (runQueries rest (runQuery t q).2).2)

/-- Modelled from the spec: a generic filtering stage that retains exactly
the tokens whose keep() is true (spec section 8, end-to-end scenario 2). -/
def filterKeep {T : Type} [TokKind T] (ts : List (Tok T)) : List (Tok T) :=
  ts.filter (fun t => t.keep)

/-- Token equality holds exactly when the kind fields and the span fields
are equal. -/
theorem tok_beq_spec {T : Type} [DecidableEq T] (a b : Tok T) :
    Tok.beq a b = true ↔ a.kind = b.kind ∧ a.span = b.span := by
  simp [Tok.beq]

/-- A single read-only operation leaves the token state unchanged. -/
theorem runQuery_state {T : Type} [TokKind T] [TokDisplay T] [DecidableEq T]
    (t : Tok T) (q : TokQuery T) : (runQuery t q).2 = t := by
  cases q <;> rfl

/-- A sequence of read-only operations leaves the token state unchanged. -/
theorem runQueries_state {T : Type} [TokKind T] [TokDisplay T] [DecidableEq T]
    (qs : List (TokQuery T)) : ∀ t : Tok T, (runQueries qs t).2 = t := by
  induction qs with
  | nil => intro t; rfl
  | cons q rest ih =>
    intro t
    show (runQueries rest (runQuery t q).2).2 = t
    rw [runQuery_state, ih]

/-- C1: construction is faithful and lossless: for every kind value k and
span s, the token built by Tok.new from k and s returns k from kind and s
from span. -/
theorem tok_new_faithful {T : Type} (k : T) (s : SrcSpan) :
    (Tok.new k s).kind = k ∧ (Tok.new k s).span = s :=
  ⟨rfl, rfl⟩

/-- C2: delegation equivalence: for every token t, is_keyword, is_reserved
and keep on t agree with the corresponding classification predicate on
t.kind. -/
theorem tok_delegation {T : Type} [TokKind T] (t : Tok T) :
    t.is_keyword = TokKind.is_keyword t.kind ∧
    t.is_reserved = TokKind.is_reserved t.kind ∧
    t.keep = TokKind.keep t.kind :=
  ⟨rfl, rfl, rfl⟩

/-- C3: location delegation is exact: for every token t, t.loc equals the
start location of t.span, obtained through the span's own start accessor
with no other computation. -/
theorem tok_loc_exact {T : Type} (t : Tok T) :
    t.loc = t.span.loc ∧ t.loc = t.span.start :=
  ⟨rfl, rfl⟩

/-- C4: rendering a token as text yields exactly the textual rendering of
its kind; the span contributes nothing. -/
theorem tok_display_is_kind_display {T : Type} [TokDisplay T]
    (k : T) (s : SrcSpan) :
    (Tok.new k s).display = TokDisplay.display k :=
  rfl

/-- C5: token equality is exactly structural and an equivalence relation:
two constructed tokens are equal exactly when their kinds and spans are
equal, and the equality is reflexive, symmetric and transitive. -/
theorem tok_eq_structural_equiv {T : Type} [DecidableEq T]
    (k1 k2 : T) (s1 s2 : SrcSpan) (a b c : Tok T) :
    (Tok.beq (Tok.new k1 s1) (Tok.new k2 s2) = true ↔ k1 = k2 ∧ s1 = s2) ∧
    Tok.beq a a = true ∧
    (Tok.beq a b = true → Tok.beq b a = true) ∧
    (Tok.beq a b = true → Tok.beq b c = true → Tok.beq a c = true) := by
  refine ⟨tok_beq_spec (Tok.new k1 s1) (Tok.new k2 s2), ?_, ?_, ?_⟩
  · exact (tok_beq_spec a a).mpr ⟨rfl, rfl⟩
  · intro h
    obtain ⟨hk, hs⟩ := (tok_beq_spec a b).mp h
    exact (tok_beq_spec b a).mpr ⟨hk.symm, hs.symm⟩
  · intro hab hbc
    obtain ⟨hk1, hs1⟩ := (tok_beq_spec a b).mp hab
    obtain ⟨hk2, hs2⟩ := (tok_beq_spec b c).mp hbc
    exact (tok_beq_spec a c).mpr ⟨hk1.trans hk2, hs1.trans hs2⟩

/-- C6: keep-based filtering retains exactly the tokens whose keep is
true: the output is a sublist of the input (so retained tokens are
unchanged in content and in their original relative order), and a token is
in the output exactly when it is in the input and its keep is true, so
every token whose kind has keep false is dropped. -/
theorem filter_keep_correct {T : Type} [TokKind T]
    (ts : List (Tok T)) (t : Tok T) :
    List.Sublist (filterKeep ts) ts ∧
    (t ∈ filterKeep ts ↔ t ∈ ts ∧ t.keep = true) := by
  refine ⟨List.filter_sublist ts, ?_⟩
  simp [filterKeep]

/-- C7: totality: every operation of the core is a total function that
yields a plain value on every kind, span and token, including tokens built
from an arbitrary unvalidated span; no operation is partial, panicking or
error-valued in the embedding. -/
theorem tok_ops_total {T : Type} [TokKind T] [TokDisplay T] [DecidableEq T]
    (k : T) (s : SrcSpan) (t u : Tok T) :
    (∃ r : Tok T, Tok.new k s = r) ∧
    (∃ r : SrcSpan, t.span = r) ∧
    (∃ r : T, t.kind = r) ∧
    (∃ r : SrcLoc, t.loc = r) ∧
    (∃ r : Bool, t.is_keyword = r) ∧
    (∃ r : Bool, t.is_reserved = r) ∧
    (∃ r : Bool, t.keep = r) ∧
    (∃ r : String, t.display = r) ∧
    (∃ r : Bool, Tok.beq t u = r) ∧
    (∃ r : Tok T, t.clone = r) :=
  ⟨⟨_, rfl⟩, ⟨_, rfl⟩, ⟨_, rfl⟩, ⟨_, rfl⟩, ⟨_, rfl⟩,
   ⟨_, rfl⟩, ⟨_, rfl⟩, ⟨_, rfl⟩, ⟨_, rfl⟩, ⟨_, rfl⟩⟩

/-- C8: immutability as a frame property: running any sequence of the
public read-only operations leaves the token state identical, so its kind
and span are unchanged; the query type enumerates all public operations of
the source and no mutating operation exists. -/
theorem tok_immutable_frame {T : Type} [TokKind T] [TokDisplay T]
    [DecidableEq T] (qs : List (TokQuery T)) (t : Tok T) :
    (runQueries qs t).2 = t ∧
    (runQueries qs t).2.kind = t.kind ∧
    (runQueries qs t).2.span = t.span := by
  have h := runQueries_state qs t
  exact ⟨h, by rw [h], by rw [h]⟩

/-- C9: cloning round-trip: the clone of a token equals the original, both
as values and under token equality, and no later sequence of operations
changes the clone. -/
theorem tok_clone_roundtrip {T : Type} [TokKind T] [TokDisplay T]
    [DecidableEq T] (t : Tok T) (qs : List (TokQuery T)) :
    Tok.clone t = t ∧
    Tok.beq (Tok.clone t) t = true ∧
    (runQueries qs (Tok.clone t)).2 = Tok.clone t :=
  ⟨rfl, (tok_beq_spec (Tok.clone t) t).mpr ⟨rfl, rfl⟩,
   runQueries_state qs (Tok.clone t)⟩

/-- C10: span noninterference: two tokens built from the same kind and any
two spans agree on is_keyword, is_reserved, keep and rendered text, so
classification and rendering are functions of the kind alone. -/
theorem tok_span_noninterference {T : Type} [TokKind T] [TokDisplay T]
    (k : T) (s1 s2 : SrcSpan) :
    (Tok.new k s1).is_keyword = (Tok.new k s2).is_keyword ∧
    (Tok.new k s1).is_reserved = (Tok.new k s2).is_reserved ∧
    (Tok.new k s1).keep = (Tok.new k s2).keep ∧
    (Tok.new k s1).display = (Tok.new k s2).display :=
  ⟨rfl, rfl, rfl, rfl⟩
